import Mathlib

/-!
Shallow embedding of the route-energy planning engine of `ev-flow-charge`.

The embedded code lives in two places of the repository:
  * `src/components/PredictionModal.tsx` — the routing utility block
    (`getUsableRange`, `findStationsAlongRoute`, `calculateDistance`,
    `calculateChargingStops`, `calculateTotalRouteDistance`) — the
    "geometry mode" planner;
  * the EV-routing page (`handleFormSubmit`) — the "sequential mode"
    planner built over the same primitives, plus `estimateChargingTime`.

Modelling conventions:
  * JavaScript numbers are modelled as `ℚ`; none of the verified
    properties depend on floating-point rounding.
  * The geodesic primitives (geolib's `getDistance`, returning metres, and
    turf's `pointToLineDistance` with `units: 'meters'`) are transcendental
    floating-point functions; the planner consumes them only through sums
    and comparisons, so they are abstracted as parameters
    `gdist : Coord → Coord → ℚ` (metres between two points) and
    `p2l : Coord → List Coord → ℚ` (metres from a point to a polyline).
    All planner theorems are proved for arbitrary such functions; concrete
    witnesses instantiate them with the executable stand-ins `gdistM`/`p2lM`
    defined below.
  * The JS `while` loops of both planners are written as fuel-indexed
    recursions returning `Option` (`none` = fuel exhausted).  The geometry
    loop provably needs at most `stations.length + 1` iterations and the
    top-level `calculateChargingStops` supplies exactly that much fuel; the
    sequential loop of `handleFormSubmit` has no such bound in the source,
    so its fuel stays a parameter.
  * The JS code accumulates stops with `push`; the recursions here return
    the same list by consing the stop produced in each iteration onto the
    stops of the remaining iterations.
-/

namespace EvFlowCharge

/-- A WGS84 coordinate, `(latitude, longitude)` in degrees. -/
abbrev Coord : Type := ℚ × ℚ

/-- The `Station` interface of `PredictionModal.tsx`, restricted to the
fields the planner and the verified claims read (`station_name`, `city`,
address and similar display-only strings are omitted). -/
structure Station where
  station_id : String
  latitude : ℚ
  longitude : ℚ
  power_rating_kw : ℚ
  total_slots : Nat
  available_slots : Nat
  price_per_kwh : ℚ
  operational_status : String
deriving DecidableEq

/-- The coordinate of a station. -/
def Station.coord (s : Station) : Coord := (s.latitude, s.longitude)

/-- The `type` discriminator of the `RoutePoint` interface. -/
inductive PointType where
  | start
  | destination
  | charging_stop
deriving DecidableEq

/-- The `RoutePoint` interface of `PredictionModal.tsx`: a stop on the
computed route.  `station`, `batteryLevel` and `distanceFromStart` are
optional fields in the source, hence `Option` here. -/
structure RoutePoint where
  lat : ℚ
  lng : ℚ
  type : PointType
  station : Option Station
  batteryLevel : Option ℚ
  distanceFromStart : Option ℚ
deriving DecidableEq

/-- `getUsableRange` (PredictionModal.tsx): usable battery range,
`(batteryPercent / 100) * fullRangeKm`. -/
def getUsableRange (batteryPercent fullRangeKm : ℚ) : ℚ :=
  batteryPercent / 100 * fullRangeKm

/-- `calculateDistance` (PredictionModal.tsx): geodesic distance in km,
`getDistance(...) / 1000`.  `gdist` abstracts geolib's `getDistance`
(metres). -/
def calculateDistance (gdist : Coord → Coord → ℚ) (lat1 lng1 lat2 lng2 : ℚ) : ℚ :=
  gdist (lat1, lng1) (lat2, lng2) / 1000

/-- `findStationsAlongRoute` (PredictionModal.tsx): the stations whose
distance to the route polyline is at most `maxDistanceKm` kilometres
(compared in metres), in input order.  `p2l` abstracts turf's
`pointToLineDistance` in metres. -/
def findStationsAlongRoute (p2l : Coord → List Coord → ℚ)
    (routePoints : List Coord) (stations : List Station)
    (maxDistanceKm : ℚ) : List Station :=
  stations.filter fun s => decide (p2l s.coord routePoints ≤ maxDistanceKm * 1000)

/-- `estimateChargingTime` (EV-routing page): hours to charge the energy
needed for `distanceKm`.  The source divides by `powerKw || 1`, so a zero
power rating is silently replaced by 1 kW. -/
def estimateChargingTime (distanceKm fullRangeKm powerKw batteryCapacityKWh : ℚ) : ℚ :=
  let kWhPerKm := batteryCapacityKWh / fullRangeKm
  let neededKWh := distanceKm * kWhPerKm
  neededKWh / (if powerKw = 0 then 1 else powerKw)

/-- `calculateTotalRouteDistance` (PredictionModal.tsx): sum of the
consecutive-segment geodesic distances of a polyline, in km. -/
def calculateTotalRouteDistance (gdist : Coord → Coord → ℚ) : List Coord → ℚ
  | [] => 0
  | [_] => 0
  | a :: b :: rest => gdist a b / 1000 + calculateTotalRouteDistance gdist (b :: rest)

/-- The comparator of the JS `reachableStations.sort((a, b) => a.dist - b.dist)`:
ascending distance. -/
def distLE (a b : Station × ℚ) : Prop := a.2 ≤ b.2

instance : DecidableRel distLE := fun a b => inferInstanceAs (Decidable (a.2 ≤ b.2))

instance : IsTotal (Station × ℚ) distLE := ⟨fun a b => le_total a.2 b.2⟩

instance : IsTrans (Station × ℚ) distLE := ⟨fun _ _ _ hab hbc => le_trans hab hbc⟩

/-- The `reachableStations` computation inside `calculateChargingStops`:
pair each remaining station with its straight-line distance from the
current position, keep those within `usableRange`, and sort ascending by
distance (JS `Array.sort` with a numeric comparator is a stable ascending
sort, modelled by the stable `insertionSort`). -/
def reachableStations (gdist : Coord → Coord → ℚ) (currentLat currentLng usableRange : ℚ)
    (remaining : List Station) : List (Station × ℚ) :=
  List.insertionSort distLE
    ((remaining.map fun s =>
        (s, calculateDistance gdist currentLat currentLng s.latitude s.longitude)).filter
      fun sd => decide (sd.2 ≤ usableRange))

/-- The stop-selection loop inside `calculateChargingStops`:
`nextStop` starts as `reachableStations[0]` and is replaced by the first
station (in sorted order) whose distance to the destination is strictly
below `distanceToDest`.  Returns `none` when no station is reachable (the
`reachableStations.length === 0` break). -/
def pickNextStop (gdist : Coord → Coord → ℚ) (destLat destLng distanceToDest : ℚ)
    (reachable : List (Station × ℚ)) : Option (Station × ℚ) :=
  match reachable with
  | [] => none
  | h :: _ =>
    some ((reachable.find? fun sd =>
      decide (calculateDistance gdist sd.1.latitude sd.1.longitude destLat destLng
        < distanceToDest)).getD h)

/-- The `while (true)` loop of `calculateChargingStops`, as a fuel-indexed
recursion.  Arguments mirror the JS mutable state: `currentBattery`,
`totalDistance`, current position, and the `remainingStations` working
copy.  `none` = fuel exhausted; the stops pushed by the iterations are
returned as the list. -/
def chargingLoop (gdist : Coord → Coord → ℚ) (destLat destLng fullRangeKm : ℚ) :
    Nat → ℚ → ℚ → ℚ → ℚ → List Station → Option (List RoutePoint)
  | 0, _, _, _, _, _ => none
  | fuel + 1, currentBattery, totalDistance, currentLat, currentLng, remaining =>
    let distanceToDest := calculateDistance gdist currentLat currentLng destLat destLng
    let usableRange := getUsableRange currentBattery fullRangeKm
    if usableRange ≥ distanceToDest then
      some [{ lat := destLat, lng := destLng, type := PointType.destination,
              station := none,
              batteryLevel := some (max 0 (currentBattery - distanceToDest / fullRangeKm * 100)),
              distanceFromStart := some (totalDistance + distanceToDest) }]
    else
      match pickNextStop gdist destLat destLng distanceToDest
          (reachableStations gdist currentLat currentLng usableRange remaining) with
      | none => some []
      | some nextStop =>
        (chargingLoop gdist destLat destLng fullRangeKm fuel 100
            (totalDistance + nextStop.2) nextStop.1.latitude nextStop.1.longitude
            (remaining.filter fun s => decide (s.station_id ≠ nextStop.1.station_id))).map
          fun rest =>
            { lat := nextStop.1.latitude, lng := nextStop.1.longitude,
              type := PointType.charging_stop, station := some nextStop.1,
              batteryLevel := some currentBattery,
              distanceFromStart := some totalDistance } :: rest

/-- `calculateChargingStops` (PredictionModal.tsx): simulate driving from
`routePoints[0]` to the last route point, inserting charging stops.  The
empty-polyline case (a `TypeError` in JS) is modelled with default heads;
the loop gets `stations.length + 1` fuel, which is proved sufficient
below.  `minBatteryThreshold` is a parameter of the source that its body
never reads. -/
def calculateChargingStops (gdist : Coord → Coord → ℚ) (routePoints : List Coord)
    (stations : List Station) (initialBatteryPercent fullRangeKm : ℚ)
    (minBatteryThreshold : ℚ := 30) : Option (List RoutePoint) :=
  let _ := minBatteryThreshold
  let startPt := routePoints.headD (0, 0)
  let destPt := routePoints.getLastD (0, 0)
  (chargingLoop gdist destPt.1 destPt.2 fullRangeKm (stations.length + 1)
      initialBatteryPercent 0 startPt.1 startPt.2 stations).map
    fun rest =>
      { lat := startPt.1, lng := startPt.2, type := PointType.start,
        station := none, batteryLevel := some initialBatteryPercent,
        distanceFromStart := some 0 } :: rest

/-- `handleRouteCalculated` (EV-routing page): geometry-mode entry point —
feeds `calculateChargingStops` with the stations within 25 km of the
route, with no availability or status filtering. -/
def handleRouteCalculated (gdist : Coord → Coord → ℚ) (p2l : Coord → List Coord → ℚ)
    (routePoints : List Coord) (stations : List Station)
    (batteryPercent fullRangeKm : ℚ) : Option (List RoutePoint) :=
  calculateChargingStops gdist routePoints
    (findStationsAlongRoute p2l routePoints stations 25) batteryPercent fullRangeKm 30

/-! ### Sequential mode (`handleFormSubmit` of the EV-routing page) -/

/-- The inner `while` of `handleFormSubmit`: starting from segment index
`nextIdx`, accumulate consecutive-segment distances of the reference
polyline while the running total stays within `usableRange`; returns the
final `(distance, nextIdx)`.  Fuel-indexed; `poly.length` fuel is always
enough since `nextIdx` increases each step and the walk stops at the end
of the polyline. -/
def walkForward (gdist : Coord → Coord → ℚ) (poly : List Coord) (usableRange : ℚ) :
    Nat → ℚ → Nat → ℚ × Nat
  | 0, distance, nextIdx => (distance, nextIdx)
  | fuel + 1, distance, nextIdx =>
    if nextIdx < poly.length then
      let seg := gdist (poly.getD (nextIdx - 1) (0, 0)) (poly.getD nextIdx (0, 0)) / 1000
      if distance + seg ≤ usableRange then
        walkForward gdist poly usableRange fuel (distance + seg) (nextIdx + 1)
      else (distance, nextIdx)
    else (distance, nextIdx)

/-- The candidate-picking loop of `handleFormSubmit`: `bestStation` starts
as `candidateStations[0]` and is replaced whenever a candidate is strictly
closer to the reference point `ref` (the polyline point where the usable
range ran out). -/
def pickBestStation (gdist : Coord → Coord → ℚ) (ref : Coord) :
    List Station → Option Station
  | [] => none
  | c :: cs =>
    some ((c :: cs).foldl
      (fun best s => if gdist ref s.coord < gdist ref best.coord then s else best) c)

/-- The candidate stations of one lateral search band of
`handleFormSubmit`: stations of the working set within `searchRange` km of
the lookahead window whose straight-line distance from the current
polyline point is within the usable range. -/
def bandCandidates (gdist : Coord → Coord → ℚ) (p2l : Coord → List Coord → ℚ)
    (poly : List Coord) (availableStations : List Station)
    (currentBattery fullRangeKm : ℚ) (currentIdx nextIdx : Nat)
    (searchRange : ℚ) : List Station :=
  let lookahead := (poly.drop currentIdx).take (nextIdx + 10 - currentIdx)
  (findStationsAlongRoute p2l lookahead availableStations searchRange).filter fun s =>
    decide (gdist (poly.getD currentIdx (0, 0)) s.coord / 1000
      ≤ getUsableRange currentBattery fullRangeKm)

/-- The expanding-radius `for (searchRange = 10; searchRange <= 40; ...)`
loop of `handleFormSubmit`, over the list of bands still to try.  Returns
the station selected in the first band with candidates (the candidate
closest to `poly[nextIdx - 1]`), or `none` when every band fails or the
lookahead window has fewer than 2 points (the `break`). -/
def searchBands (gdist : Coord → Coord → ℚ) (p2l : Coord → List Coord → ℚ)
    (poly : List Coord) (availableStations : List Station)
    (currentBattery fullRangeKm : ℚ) (currentIdx nextIdx : Nat) :
    List ℚ → Option Station
  | [] => none
  | searchRange :: rest =>
    if ((poly.drop currentIdx).take (nextIdx + 10 - currentIdx)).length < 2 then none
    else
      match bandCandidates gdist p2l poly availableStations currentBattery fullRangeKm
          currentIdx nextIdx searchRange with
      | [] => searchBands gdist p2l poly availableStations currentBattery fullRangeKm
          currentIdx nextIdx rest
      | c :: cs => pickBestStation gdist (poly.getD (nextIdx - 1) (0, 0)) (c :: cs)

/-- The outer `while (currentIdx < osrmPolyline.length - 1)` loop of
`handleFormSubmit`, fuel-indexed.  The result is
`(stopPoints suffix, smartStops suffix, stranded?)`: the coordinates and
charging stops pushed from this iteration on, and whether the loop ended
on the "No reachable charging station" toast.  The source never removes a
chosen station from `availableStations`, and this model faithfully keeps
the working set unchanged across iterations. -/
def seqLoop (gdist : Coord → Coord → ℚ) (p2l : Coord → List Coord → ℚ)
    (poly : List Coord) (dest : Coord) (fullRangeKm : ℚ)
    (availableStations : List Station) :
    Nat → ℚ → Nat → Option (List Coord × List RoutePoint × Bool)
  | 0, _, _ => none
  | fuel + 1, currentBattery, currentIdx =>
    if currentIdx < poly.length - 1 then
      let walked := walkForward gdist poly (getUsableRange currentBattery fullRangeKm)
        poly.length 0 (currentIdx + 1)
      if walked.2 ≥ poly.length then some ([dest], [], false)
      else
        match searchBands gdist p2l poly availableStations currentBattery fullRangeKm
            currentIdx walked.2 [10, 20, 30, 40] with
        | none => some ([], [], true)
        | some bestStation =>
          (seqLoop gdist p2l poly dest fullRangeKm availableStations fuel 100
              (walked.2 - 1)).map
            fun out =>
              (bestStation.coord :: out.1,
               { lat := bestStation.latitude, lng := bestStation.longitude,
                 type := PointType.charging_stop, station := some bestStation,
                 batteryLevel := some currentBattery,
                 distanceFromStart :=
                   some (calculateTotalRouteDistance gdist (poly.take walked.2)) } :: out.2.1,
               out.2.2)
    else some ([], [], false)

/-- The sequential planning block of `handleFormSubmit` (EV-routing page):
filter the station snapshot to available, fast-enough chargers, then run
the greedy loop over the pre-fetched reference polyline.  Geocoding, the
OSRM fetches and the per-leg polyline stitching are external I/O and are
not part of the planning computation; `poly` is the fetched reference
polyline.  Returns `(stopPoints, smartStops, stranded?)`. -/
def handleFormSubmitPlan (gdist : Coord → Coord → ℚ) (p2l : Coord → List Coord → ℚ)
    (start dest : Coord) (poly : List Coord) (stations : List Station)
    (batteryPercent fullRangeKm batteryCapacityKWh : ℚ) (fuel : Nat) :
    Option (List Coord × List RoutePoint × Bool) :=
  let availableStations := stations.filter fun s =>
    decide (0 < s.available_slots ∧ batteryCapacityKWh / s.power_rating_kw ≤ 3)
  (seqLoop gdist p2l poly dest fullRangeKm availableStations fuel batteryPercent 0).map
    fun out => (start :: out.1, out.2)

/-! ### Concrete geodesic stand-ins for witnesses -/

/-- Executable stand-in for geolib's `getDistance`: a scaled taxicab
metric in "metres" where one degree counts as one kilometre.  The planner
theorems hold for every `gdist`; this instance only feeds concrete
witnesses and counterexamples. -/
def gdistM (a b : Coord) : ℚ := 1000 * (|a.1 - b.1| + |a.2 - b.2|)

/-- Executable stand-in for turf's `pointToLineDistance` (metres): minimum
`gdistM` distance from the point to a vertex of the polyline. -/
def p2lM (p : Coord) (line : List Coord) : ℚ :=
  (line.map (gdistM p)).foldr min (10 ^ 9)

/-- The charging stops of a route-point list, with their stations
(`filterMap`: keeps `charging_stop` points carrying a station). -/
def stopStations (l : List RoutePoint) : List Station :=
  l.filterMap fun p => if p.type = PointType.charging_stop then p.station else none

/-- The recorded battery levels of the charging stops of a route-point
list. -/
def chargeLevels (l : List RoutePoint) : List ℚ :=
  l.filterMap fun p => if p.type = PointType.charging_stop then p.batteryLevel else none

/-- Reading of the spec sentence behind C8: the pairwise sum of
point-to-point distances over consecutive points of a polyline. -/
def pairwiseDistanceSum (gdist : Coord → Coord → ℚ) (line : List Coord) : ℚ :=
  ((line.zip line.tail).map fun ab =>
    calculateDistance gdist ab.1.1 ab.1.2 ab.2.1 ab.2.2).sum

/-! ### Helper lemmas -/

lemma total_eq_pairwise (gdist : Coord → Coord → ℚ) :
    ∀ line : List Coord,
      calculateTotalRouteDistance gdist line = pairwiseDistanceSum gdist line
  | [] => rfl
  | [_] => rfl
  | a :: b :: rest => by
    simp only [calculateTotalRouteDistance, pairwiseDistanceSum, List.tail_cons,
      List.zip_cons_cons, List.map_cons, List.sum_cons, calculateDistance]
    rw [total_eq_pairwise gdist (b :: rest)]
    rfl

lemma pickNextStop_mem {gdist : Coord → Coord → ℚ} {destLat destLng distanceToDest : ℚ}
    {reachable : List (Station × ℚ)} {c : Station × ℚ}
    (h : pickNextStop gdist destLat destLng distanceToDest reachable = some c) :
    c ∈ reachable := by
  match reachable, h with
  | a :: t, h =>
    simp only [pickNextStop] at h
    cases hf : List.find? (fun sd =>
        decide (calculateDistance gdist sd.1.latitude sd.1.longitude destLat destLng
          < distanceToDest)) (a :: t) with
    | none => rw [hf] at h; simp only [Option.getD_none, Option.some.injEq] at h
              exact h ▸ List.mem_cons_self a t
    | some x => rw [hf] at h; simp only [Option.getD_some, Option.some.injEq] at h
                exact h ▸ List.mem_of_find?_eq_some hf

lemma reachable_mem_remaining {gdist : Coord → Coord → ℚ}
    {currentLat currentLng usableRange : ℚ} {remaining : List Station} {sd : Station × ℚ}
    (h : sd ∈ reachableStations gdist currentLat currentLng usableRange remaining) :
    sd.1 ∈ remaining ∧
      sd.2 = calculateDistance gdist currentLat currentLng sd.1.latitude sd.1.longitude ∧
      sd.2 ≤ usableRange := by
  unfold reachableStations at h
  have h1 := (List.perm_insertionSort distLE _).mem_iff.mp h
  have h2 := (List.mem_filter.mp h1).2
  have h3 := List.mem_of_mem_filter h1
  rcases List.mem_map.mp h3 with ⟨s, hs, heq⟩
  refine ⟨?_, ?_, by simpa using h2⟩
  · rw [← heq]; exact hs
  · rw [← heq]

lemma reachable_complete {gdist : Coord → Coord → ℚ}
    {currentLat currentLng usableRange : ℚ} {remaining : List Station} {s : Station}
    (hs : s ∈ remaining)
    (hd : calculateDistance gdist currentLat currentLng s.latitude s.longitude
      ≤ usableRange) :
    (s, calculateDistance gdist currentLat currentLng s.latitude s.longitude) ∈
      reachableStations gdist currentLat currentLng usableRange remaining := by
  unfold reachableStations
  refine (List.perm_insertionSort distLE _).mem_iff.mpr ?_
  refine List.mem_filter.mpr ⟨List.mem_map.mpr ⟨s, hs, rfl⟩, by simpa using hd⟩

lemma reachable_sorted (gdist : Coord → Coord → ℚ)
    (currentLat currentLng usableRange : ℚ) (remaining : List Station) :
    List.Sorted distLE
      (reachableStations gdist currentLat currentLng usableRange remaining) :=
  List.sorted_insertionSort distLE _

lemma station_filter_length_lt {l : List Station} {c : Station} (hc : c ∈ l) :
    (l.filter fun s => decide (s.station_id ≠ c.station_id)).length < l.length :=
  List.length_filter_lt_length_iff_exists.mpr ⟨c, hc, by simp⟩

lemma chargingLoop_isSome (gdist : Coord → Coord → ℚ) (destLat destLng fullRangeKm : ℚ) :
    ∀ (fuel : Nat) (currentBattery totalDistance currentLat currentLng : ℚ)
      (remaining : List Station), remaining.length < fuel →
      (chargingLoop gdist destLat destLng fullRangeKm fuel currentBattery totalDistance
        currentLat currentLng remaining).isSome = true := by
  intro fuel
  induction fuel with
  | zero => intro _ _ _ _ rem h; omega
  | succ n ih =>
    intro b tot lat lng rem h
    rw [chargingLoop]
    split
    · rfl
    · cases hp : pickNextStop gdist destLat destLng
          (calculateDistance gdist lat lng destLat destLng)
          (reachableStations gdist lat lng (getUsableRange b fullRangeKm) rem) with
      | none => rfl
      | some c =>
        rw [Option.isSome_map']
        apply ih
        have hc : c.1 ∈ rem := (reachable_mem_remaining (pickNextStop_mem hp)).1
        have := station_filter_length_lt hc
        omega

lemma stopStations_cons_stop {p : RoutePoint} {c : Station}
    (ht : p.type = PointType.charging_stop) (hs : p.station = some c)
    (l : List RoutePoint) : stopStations (p :: l) = c :: stopStations l := by
  simp [stopStations, ht, hs]

lemma stopStations_cons_skip {p : RoutePoint}
    (ht : p.type ≠ PointType.charging_stop) (l : List RoutePoint) :
    stopStations (p :: l) = stopStations l := by
  simp [stopStations, ht]

lemma chargeLevels_cons_stop {p : RoutePoint} {b : ℚ}
    (ht : p.type = PointType.charging_stop) (hb : p.batteryLevel = some b)
    (l : List RoutePoint) : chargeLevels (p :: l) = b :: chargeLevels l := by
  simp [chargeLevels, ht, hb]

lemma chargeLevels_cons_skip {p : RoutePoint}
    (ht : p.type ≠ PointType.charging_stop) (l : List RoutePoint) :
    chargeLevels (p :: l) = chargeLevels l := by
  simp [chargeLevels, ht]

lemma chargingLoop_stations (gdist : Coord → Coord → ℚ)
    (destLat destLng fullRangeKm : ℚ) :
    ∀ (fuel : Nat) (b tot lat lng : ℚ) (remaining : List Station)
      (out : List RoutePoint),
      chargingLoop gdist destLat destLng fullRangeKm fuel b tot lat lng remaining =
        some out →
      (∀ s ∈ stopStations out, s ∈ remaining) ∧
      ((stopStations out).map Station.station_id).Nodup := by
  intro fuel
  induction fuel with
  | zero => intro _ _ _ _ rem out h; cases h
  | succ n ih =>
    intro b tot lat lng rem out h
    rw [chargingLoop] at h
    split at h
    · cases h
      refine ⟨fun s hs => ?_, ?_⟩
      · rw [stopStations_cons_skip (by simp)] at hs
        simp [stopStations] at hs
      · rw [stopStations_cons_skip (by simp)]
        simp [stopStations]
    · cases hp : pickNextStop gdist destLat destLng
          (calculateDistance gdist lat lng destLat destLng)
          (reachableStations gdist lat lng (getUsableRange b fullRangeKm) rem) with
      | none =>
        rw [hp] at h
        cases h
        exact ⟨fun s hs => by simp [stopStations] at hs, by simp [stopStations]⟩
      | some c =>
        rw [hp] at h
        rcases Option.map_eq_some'.mp h with ⟨out', hrec, rfl⟩
        obtain ⟨hsub, hnod⟩ := ih 100 (tot + c.2) c.1.latitude c.1.longitude _ out' hrec
        have hc : c.1 ∈ rem := (reachable_mem_remaining (pickNextStop_mem hp)).1
        refine ⟨fun s hs => ?_, ?_⟩
        · rw [stopStations_cons_stop rfl rfl] at hs
          rcases List.mem_cons.mp hs with rfl | hs'
          · exact hc
          · exact List.mem_of_mem_filter (hsub s hs')
        · rw [stopStations_cons_stop rfl rfl, List.map_cons, List.nodup_cons]
          refine ⟨fun hmem => ?_, hnod⟩
          rcases List.mem_map.mp hmem with ⟨s, hs', hid⟩
          have hne := (List.mem_filter.mp (hsub s hs')).2
          rw [decide_eq_true_eq] at hne
          exact hne hid

lemma chargeLevels_nil : chargeLevels [] = [] := rfl

lemma stopStations_nil : stopStations [] = [] := rfl

lemma chargingLoop_levels (gdist : Coord → Coord → ℚ)
    (destLat destLng fullRangeKm : ℚ) :
    ∀ (fuel : Nat) (b tot lat lng : ℚ) (remaining : List Station)
      (out : List RoutePoint),
      chargingLoop gdist destLat destLng fullRangeKm fuel b tot lat lng remaining =
        some out →
      (chargeLevels out = [] ∨ ∃ n, chargeLevels out = b :: List.replicate n 100) ∧
      (∀ p ∈ out, p.type = PointType.destination → ∃ d,
        p.batteryLevel =
          some (max 0 ((if chargeLevels out = [] then b else 100) -
            d / fullRangeKm * 100))) := by
  intro fuel
  induction fuel with
  | zero => intro _ _ _ _ rem out h; cases h
  | succ n ih =>
    intro b tot lat lng rem out h
    rw [chargingLoop] at h
    split at h
    · cases h
      rw [chargeLevels_cons_skip (by simp), chargeLevels_nil]
      refine ⟨Or.inl rfl, fun p hp hd => ?_⟩
      rcases List.mem_singleton.mp hp with rfl
      exact ⟨calculateDistance gdist lat lng destLat destLng, by simp⟩
    · cases hp : pickNextStop gdist destLat destLng
          (calculateDistance gdist lat lng destLat destLng)
          (reachableStations gdist lat lng (getUsableRange b fullRangeKm) rem) with
      | none =>
        rw [hp] at h
        cases h
        exact ⟨Or.inl rfl, fun p hp' => by simp at hp'⟩
      | some c =>
        rw [hp] at h
        rcases Option.map_eq_some'.mp h with ⟨out', hrec, rfl⟩
        obtain ⟨hlev, hdest⟩ := ih 100 (tot + c.2) c.1.latitude c.1.longitude _ out' hrec
        rw [chargeLevels_cons_stop rfl rfl]
        constructor
        · rcases hlev with h0 | ⟨m, hm⟩
          · exact Or.inr ⟨0, by rw [h0]; rfl⟩
          · exact Or.inr ⟨m + 1, by rw [hm, List.replicate_succ]⟩
        · intro p hp' hd
          rcases List.mem_cons.mp hp' with rfl | hp''
          · simp at hd
          · rcases hdest p hp'' hd with ⟨d, hdval⟩
            refine ⟨d, ?_⟩
            rw [if_neg (List.cons_ne_nil _ _), hdval, ite_self]

lemma foldl_pick_min (gdist : Coord → Coord → ℚ) (ref : Coord) :
    ∀ (l : List Station) (acc : Station),
      (l.foldl (fun best s =>
          if gdist ref s.coord < gdist ref best.coord then s else best) acc = acc ∨
        l.foldl (fun best s =>
          if gdist ref s.coord < gdist ref best.coord then s else best) acc ∈ l) ∧
      gdist ref (l.foldl (fun best s =>
        if gdist ref s.coord < gdist ref best.coord then s else best) acc).coord ≤
        gdist ref acc.coord ∧
      ∀ s ∈ l, gdist ref (l.foldl (fun best s =>
        if gdist ref s.coord < gdist ref best.coord then s else best) acc).coord ≤
        gdist ref s.coord := by
  intro l
  induction l with
  | nil => exact fun acc => ⟨Or.inl rfl, le_refl _, by simp⟩
  | cons a t ih =>
    intro acc
    simp only [List.foldl_cons]
    by_cases hc : gdist ref a.coord < gdist ref acc.coord
    · rw [if_pos hc]
      obtain ⟨hmem, hle, hall⟩ := ih a
      refine ⟨?_, le_trans hle (le_of_lt hc), fun s hs => ?_⟩
      · rcases hmem with he | hm
        · exact Or.inr (by rw [he]; exact List.mem_cons_self a t)
        · exact Or.inr (List.mem_cons_of_mem a hm)
      · rcases List.mem_cons.mp hs with rfl | hst
        · exact hle
        · exact hall s hst
    · rw [if_neg hc]
      obtain ⟨hmem, hle, hall⟩ := ih acc
      refine ⟨?_, hle, fun s hs => ?_⟩
      · rcases hmem with he | hm
        · exact Or.inl he
        · exact Or.inr (List.mem_cons_of_mem a hm)
      · rcases List.mem_cons.mp hs with rfl | hst
        · exact le_trans hle (not_lt.mp hc)
        · exact hall s hst

lemma pickBestStation_spec {gdist : Coord → Coord → ℚ} {ref : Coord}
    {l : List Station} {best : Station}
    (h : pickBestStation gdist ref l = some best) :
    best ∈ l ∧ ∀ s ∈ l, gdist ref best.coord ≤ gdist ref s.coord := by
  match l, h with
  | c :: cs, h =>
    simp only [pickBestStation, Option.some.injEq] at h
    obtain ⟨hmem, _, hall⟩ := foldl_pick_min gdist ref (c :: cs) c
    constructor
    · rcases hmem with he | hm
      · rw [← h, he]; exact List.mem_cons_self c cs
      · rw [← h]; exact hm
    · intro s hs; rw [← h]; exact hall s hs

lemma bandCandidates_subset {gdist : Coord → Coord → ℚ} {p2l : Coord → List Coord → ℚ}
    {poly : List Coord} {avail : List Station} {b r : ℚ} {ci ni : Nat} {sr : ℚ}
    {s : Station} (h : s ∈ bandCandidates gdist p2l poly avail b r ci ni sr) :
    s ∈ avail := by
  unfold bandCandidates at h
  have h1 := List.mem_of_mem_filter h
  unfold findStationsAlongRoute at h1
  exact List.mem_of_mem_filter h1

lemma searchBands_spec {gdist : Coord → Coord → ℚ} {p2l : Coord → List Coord → ℚ}
    {poly : List Coord} {avail : List Station} {b r : ℚ} {ci ni : Nat} :
    ∀ (bands : List ℚ) (best : Station),
      searchBands gdist p2l poly avail b r ci ni bands = some best →
      ∃ sr ∈ bands,
        bandCandidates gdist p2l poly avail b r ci ni sr ≠ [] ∧
        best ∈ bandCandidates gdist p2l poly avail b r ci ni sr ∧
        ∀ s ∈ bandCandidates gdist p2l poly avail b r ci ni sr,
          gdist (poly.getD (ni - 1) (0, 0)) best.coord ≤
            gdist (poly.getD (ni - 1) (0, 0)) s.coord := by
  intro bands
  induction bands with
  | nil => intro best h; cases h
  | cons sr rest ih =>
    intro best h
    rw [searchBands] at h
    split at h
    · cases h
    · cases hbc : bandCandidates gdist p2l poly avail b r ci ni sr with
      | nil =>
        rw [hbc] at h
        obtain ⟨sr', hsr', hprop⟩ := ih best h
        exact ⟨sr', List.mem_cons_of_mem sr hsr', hprop⟩
      | cons c cs =>
        rw [hbc] at h
        obtain ⟨hmem, hall⟩ := pickBestStation_spec h
        refine ⟨sr, List.mem_cons_self sr rest, ?_, ?_, ?_⟩
        · rw [hbc]; exact List.cons_ne_nil c cs
        · rw [hbc]; exact hmem
        · rw [hbc]; exact hall

lemma seqLoop_invariants (gdist : Coord → Coord → ℚ) (p2l : Coord → List Coord → ℚ)
    (poly : List Coord) (dest : Coord) (fullRangeKm : ℚ) (avail : List Station) :
    ∀ (fuel : Nat) (b : ℚ) (idx : Nat) (out : List Coord × List RoutePoint × Bool),
      seqLoop gdist p2l poly dest fullRangeKm avail fuel b idx = some out →
      (∀ s ∈ stopStations out.2.1, s ∈ avail) ∧
      (chargeLevels out.2.1 = [] ∨
        ∃ n, chargeLevels out.2.1 = b :: List.replicate n 100) := by
  intro fuel
  induction fuel with
  | zero => intro _ _ out h; cases h
  | succ n ih =>
    intro b idx out h
    simp only [seqLoop] at h
    split at h
    · split at h
      · cases h
        exact ⟨fun s hs => by simp [stopStations] at hs, Or.inl rfl⟩
      · cases hsb : searchBands gdist p2l poly avail b fullRangeKm idx
            (walkForward gdist poly (getUsableRange b fullRangeKm)
              poly.length 0 (idx + 1)).2 [10, 20, 30, 40] with
        | none =>
          rw [hsb] at h
          cases h
          exact ⟨fun s hs => by simp [stopStations] at hs, Or.inl rfl⟩
        | some bestStation =>
          rw [hsb] at h
          rcases Option.map_eq_some'.mp h with ⟨out', hrec, rfl⟩
          obtain ⟨hsub, hlev⟩ := ih 100 _ out' hrec
          obtain ⟨sr, _, _, hmemb, _⟩ := searchBands_spec _ bestStation hsb
          refine ⟨fun s hs => ?_, ?_⟩
          · rw [stopStations_cons_stop rfl rfl] at hs
            rcases List.mem_cons.mp hs with rfl | hs'
            · exact bandCandidates_subset hmemb
            · exact hsub s hs'
          · rw [chargeLevels_cons_stop rfl rfl]
            rcases hlev with h0 | ⟨m, hm⟩
            · exact Or.inr ⟨0, by rw [h0]; rfl⟩
            · exact Or.inr ⟨m + 1, by rw [hm, List.replicate_succ]⟩
    · cases h
      exact ⟨fun s hs => by simp [stopStations] at hs, Or.inl rfl⟩

lemma dest_shape_cons {p : RoutePoint} (hnd : p.type ≠ PointType.destination)
    {l : List RoutePoint} :
    ((∀ q ∈ l, q.type ≠ PointType.destination) ∨
      ∃ pre dpt, l = pre ++ [dpt] ∧ dpt.type = PointType.destination ∧
        ∀ q ∈ pre, q.type ≠ PointType.destination) →
    ((∀ q ∈ p :: l, q.type ≠ PointType.destination) ∨
      ∃ pre dpt, p :: l = pre ++ [dpt] ∧ dpt.type = PointType.destination ∧
        ∀ q ∈ pre, q.type ≠ PointType.destination) := by
  rintro (hnone | ⟨pre, dpt, heq, hdt, hpre⟩)
  · refine Or.inl fun q hq => ?_
    rcases List.mem_cons.mp hq with rfl | hq'
    · exact hnd
    · exact hnone q hq'
  · refine Or.inr ⟨p :: pre, dpt, ?_, hdt, fun q hq => ?_⟩
    · rw [heq, List.cons_append]
    · rcases List.mem_cons.mp hq with rfl | hq'
      · exact hnd
      · exact hpre q hq'

lemma chargingLoop_dest_shape (gdist : Coord → Coord → ℚ)
    (destLat destLng fullRangeKm : ℚ) :
    ∀ (fuel : Nat) (b tot lat lng : ℚ) (remaining : List Station)
      (out : List RoutePoint),
      chargingLoop gdist destLat destLng fullRangeKm fuel b tot lat lng remaining =
        some out →
      (∀ p ∈ out, p.type ≠ PointType.destination) ∨
      ∃ pre dpt, out = pre ++ [dpt] ∧ dpt.type = PointType.destination ∧
        ∀ p ∈ pre, p.type ≠ PointType.destination := by
  intro fuel
  induction fuel with
  | zero => intro _ _ _ _ rem out h; cases h
  | succ n ih =>
    intro b tot lat lng rem out h
    rw [chargingLoop] at h
    split at h
    · cases h
      exact Or.inr ⟨[], _, rfl, rfl, by simp⟩
    · cases hp : pickNextStop gdist destLat destLng
          (calculateDistance gdist lat lng destLat destLng)
          (reachableStations gdist lat lng (getUsableRange b fullRangeKm) rem) with
      | none =>
        rw [hp] at h
        cases h
        exact Or.inl (by simp)
      | some c =>
        rw [hp] at h
        rcases Option.map_eq_some'.mp h with ⟨out', hrec, rfl⟩
        exact dest_shape_cons (by simp)
          (ih 100 (tot + c.2) c.1.latitude c.1.longitude _ out' hrec)

lemma find?_first_sorted {p : Station × ℚ → Bool} {R : List (Station × ℚ)}
    {x : Station × ℚ} (hsort : List.Sorted distLE R) (hf : R.find? p = some x) :
    ∀ d ∈ R, d.2 < x.2 → p d = false := by
  induction R with
  | nil => cases hf
  | cons a t ih =>
    intro d hd hlt
    by_cases hpa : p a
    · rw [List.find?_cons_of_pos _ hpa] at hf
      cases hf
      rcases List.mem_cons.mp hd with rfl | hdt
      · exact absurd hlt (lt_irrefl _)
      · exact absurd hlt (not_lt.mpr (List.rel_of_sorted_cons hsort d hdt))
    · rw [List.find?_cons_of_neg _ hpa] at hf
      rcases List.mem_cons.mp hd with rfl | hdt
      · exact eq_false_of_ne_true hpa
      · exact ih hsort.of_cons hf d hdt hlt

lemma pickNextStop_eq_some {gdist : Coord → Coord → ℚ}
    {destLat destLng distanceToDest : ℚ} {h : Station × ℚ} {t : List (Station × ℚ)} :
    pickNextStop gdist destLat destLng distanceToDest (h :: t) =
      some (((h :: t).find? fun sd =>
        decide (calculateDistance gdist sd.1.latitude sd.1.longitude destLat destLng
          < distanceToDest)).getD h) := rfl

/-! ### Claims -/

/-- C1: in geometry mode, when the destination is beyond the usable range
and at least one station is reachable, the planner computes the reachable
stations — exactly the remaining working set within usable straight-line
distance of the current position, sorted ascending by that distance — and
appends as next charging stop the first station in that order that is
strictly closer to the destination than the current position is; if no
reachable station makes such progress, the nearest reachable station is
selected. -/
theorem geometry_stop_selection (gdist : Coord → Coord → ℚ)
    (destLat destLng fullRangeKm : ℚ) (fuel : Nat)
    (currentBattery totalDistance currentLat currentLng : ℚ)
    (remaining : List Station)
    (hout : getUsableRange currentBattery fullRangeKm <
      calculateDistance gdist currentLat currentLng destLat destLng)
    (hne : reachableStations gdist currentLat currentLng
      (getUsableRange currentBattery fullRangeKm) remaining ≠ []) :
    ∃ c ∈ reachableStations gdist currentLat currentLng
        (getUsableRange currentBattery fullRangeKm) remaining,
      (∀ sd ∈ reachableStations gdist currentLat currentLng
            (getUsableRange currentBattery fullRangeKm) remaining,
          sd.1 ∈ remaining ∧
          sd.2 = calculateDistance gdist currentLat currentLng
            sd.1.latitude sd.1.longitude ∧
          sd.2 ≤ getUsableRange currentBattery fullRangeKm) ∧
      (∀ s ∈ remaining,
          calculateDistance gdist currentLat currentLng s.latitude s.longitude ≤
            getUsableRange currentBattery fullRangeKm →
          (s, calculateDistance gdist currentLat currentLng s.latitude s.longitude) ∈
            reachableStations gdist currentLat currentLng
              (getUsableRange currentBattery fullRangeKm) remaining) ∧
      List.Sorted distLE (reachableStations gdist currentLat currentLng
        (getUsableRange currentBattery fullRangeKm) remaining) ∧
      ((calculateDistance gdist c.1.latitude c.1.longitude destLat destLng <
          calculateDistance gdist currentLat currentLng destLat destLng ∧
        ∀ d ∈ reachableStations gdist currentLat currentLng
            (getUsableRange currentBattery fullRangeKm) remaining,
          d.2 < c.2 →
          ¬ calculateDistance gdist d.1.latitude d.1.longitude destLat destLng <
            calculateDistance gdist currentLat currentLng destLat destLng) ∨
       ((∀ d ∈ reachableStations gdist currentLat currentLng
            (getUsableRange currentBattery fullRangeKm) remaining,
          ¬ calculateDistance gdist d.1.latitude d.1.longitude destLat destLng <
            calculateDistance gdist currentLat currentLng destLat destLng) ∧
        ∀ d ∈ reachableStations gdist currentLat currentLng
            (getUsableRange currentBattery fullRangeKm) remaining,
          c.2 ≤ d.2)) ∧
      chargingLoop gdist destLat destLng fullRangeKm (fuel + 1) currentBattery
          totalDistance currentLat currentLng remaining =
        (chargingLoop gdist destLat destLng fullRangeKm fuel 100
            (totalDistance + c.2) c.1.latitude c.1.longitude
            (remaining.filter fun s => decide (s.station_id ≠ c.1.station_id))).map
          fun rest =>
            { lat := c.1.latitude, lng := c.1.longitude,
              type := PointType.charging_stop, station := some c.1,
              batteryLevel := some currentBattery,
              distanceFromStart := some totalDistance } :: rest := by
  obtain ⟨h, t, hR⟩ := List.exists_cons_of_ne_nil hne
  have hsort := reachable_sorted gdist currentLat currentLng
    (getUsableRange currentBattery fullRangeKm) remaining
  refine ⟨((h :: t).find? fun sd =>
      decide (calculateDistance gdist sd.1.latitude sd.1.longitude destLat destLng
        < calculateDistance gdist currentLat currentLng destLat destLng)).getD h,
    ?_, fun sd hsd => reachable_mem_remaining hsd,
    fun s hs hd => reachable_complete hs hd, hsort, ?_, ?_⟩
  · rw [hR]
    cases hf : (h :: t).find? fun sd =>
        decide (calculateDistance gdist sd.1.latitude sd.1.longitude destLat destLng
          < calculateDistance gdist currentLat currentLng destLat destLng) with
    | none => simp only [Option.getD_none]; exact List.mem_cons_self h t
    | some x => simp only [Option.getD_some]; exact List.mem_of_find?_eq_some hf
  · rw [hR] at hsort ⊢
    cases hf : (h :: t).find? fun sd =>
        decide (calculateDistance gdist sd.1.latitude sd.1.longitude destLat destLng
          < calculateDistance gdist currentLat currentLng destLat destLng) with
    | none =>
      refine Or.inr ⟨fun d hd => ?_, fun d hd => ?_⟩
      · have := List.find?_eq_none.mp hf d hd
        simpa using this
      · rcases List.mem_cons.mp hd with rfl | hdt
        · exact le_refl _
        · exact List.rel_of_sorted_cons hsort d hdt
    | some x =>
      refine Or.inl ⟨?_, fun d hd hlt => ?_⟩
      · simpa using List.find?_some hf
      · have := find?_first_sorted hsort hf d hd hlt
        simpa using this
  · rw [chargingLoop]
    rw [if_neg (not_le.mpr hout)]
    rw [hR, pickNextStop_eq_some]

/-- Concrete station with no available slots, 3 km from the start of a
10 km test route: used to exercise geometry mode's lack of availability
filtering. -/
def stZero : Station :=
  { station_id := "Z", latitude := 3, longitude := 0, power_rating_kw := 10,
    total_slots := 2, available_slots := 0, price_per_kwh := 12,
    operational_status := "operational" }

/-- Concrete available station 3 km from the start of a 10 km test route:
used by witnesses of the geometry-mode claims. -/
def stA : Station :=
  { station_id := "A", latitude := 3, longitude := 0, power_rating_kw := 10,
    total_slots := 2, available_slots := 1, price_per_kwh := 12,
    operational_status := "operational" }

/-- Concrete available station 1 km off a straight 12 km test polyline:
used by the sequential-mode counterexample and witnesses. -/
def stS1 : Station :=
  { station_id := "S1", latitude := 4, longitude := 1, power_rating_kw := 10,
    total_slots := 2, available_slots := 1, price_per_kwh := 12,
    operational_status := "operational" }

/-- C4: within one geometry-mode plan a station used for a stop is removed
from the working set and never selected again — the stations of the
charging stops of any produced plan carry pairwise-distinct ids. -/
theorem geometry_no_station_reuse (gdist : Coord → Coord → ℚ)
    (routePoints : List Coord) (stations : List Station)
    (initialBatteryPercent fullRangeKm minBatteryThreshold : ℚ)
    (out : List RoutePoint)
    (h : calculateChargingStops gdist routePoints stations initialBatteryPercent
      fullRangeKm minBatteryThreshold = some out) :
    ((stopStations out).map Station.station_id).Nodup := by
  simp only [calculateChargingStops] at h
  rcases Option.map_eq_some'.mp h with ⟨rest, hrec, rfl⟩
  rw [stopStations_cons_skip (by simp)]
  exact (chargingLoop_stations gdist _ _ fullRangeKm _ _ _ _ _ stations rest hrec).2

/-- C4, counterexample: the sequential planner never removes a used
station from its working set.  On a 12 km straight polyline with 5 km of
full range and a single station 1 km off the line, the station is selected
for two consecutive charging stops of the same plan. -/
theorem seq_station_reuse_counterexample :
    ((handleFormSubmitPlan gdistM p2lM (0, 0) (12, 0)
        [((0 : ℚ), (0 : ℚ)), (4, 0), (8, 0), (12, 0)] [stS1] 100 5 20 10).map
      fun out => stopStations out.2.1) = some [stS1, stS1] ∧
    ¬ (([stS1, stS1].map Station.station_id).Nodup) := by
  constructor
  · norm_num [handleFormSubmitPlan, seqLoop, walkForward, searchBands, bandCandidates,
      pickBestStation, findStationsAlongRoute, calculateTotalRouteDistance,
      calculateDistance, getUsableRange, gdistM, p2lM, Station.coord, stS1,
      stopStations, List.filterMap_cons, List.filterMap_nil]
  · simp [stS1]

/-- C5, counterexample: geometry mode applies no availability filtering —
`handleRouteCalculated` hands the raw station snapshot to
`calculateChargingStops`, and a station with `available_slots = 0` inside
geometric range is selected as a charging stop. -/
theorem zero_slot_station_selected_counterexample :
    ((handleRouteCalculated gdistM p2lM [((0 : ℚ), (0 : ℚ)), (10, 0)] [stZero] 50 10).map
      fun out => stopStations out) = some [stZero] ∧
    stZero.available_slots = 0 := by
  constructor
  · norm_num [handleRouteCalculated, calculateChargingStops, chargingLoop, pickNextStop,
      reachableStations, findStationsAlongRoute, calculateDistance, getUsableRange,
      distLE, gdistM, p2lM, Station.coord, stZero, List.insertionSort,
      List.orderedInsert, stopStations, List.filterMap_cons, List.filterMap_nil]
  · rfl

/-- C5, amended: only the sequential planner filters candidates, and only
by `available_slots > 0` together with the 3-hour full-charge ceiling
`batteryCapacityKWh / power_rating_kw ≤ 3`; every charging stop it
produces satisfies both.  `operational_status` is never consulted in
either mode, and geometry mode applies no availability filter at all. -/
theorem seq_stops_available (gdist : Coord → Coord → ℚ)
    (p2l : Coord → List Coord → ℚ) (start dest : Coord) (poly : List Coord)
    (stations : List Station) (batteryPercent fullRangeKm batteryCapacityKWh : ℚ)
    (fuel : Nat) (out : List Coord × List RoutePoint × Bool)
    (h : handleFormSubmitPlan gdist p2l start dest poly stations batteryPercent
      fullRangeKm batteryCapacityKWh fuel = some out) :
    ∀ s ∈ stopStations out.2.1,
      0 < s.available_slots ∧ batteryCapacityKWh / s.power_rating_kw ≤ 3 := by
  simp only [handleFormSubmitPlan] at h
  rcases Option.map_eq_some'.mp h with ⟨out', hrec, rfl⟩
  intro s hs
  have hmem := (seqLoop_invariants gdist p2l poly dest fullRangeKm _ fuel
    batteryPercent 0 out' hrec).1 s hs
  have := (List.mem_filter.mp hmem).2
  rw [decide_eq_true_eq] at this
  exact this

/-- C6: whenever a lateral search band of the sequential planner yields
candidates, the selected station is the candidate closest to the polyline
point where the usable range ran out (`poly[nextIdx - 1]`), not the
candidate closest to the current position. -/
theorem seq_band_selection (gdist : Coord → Coord → ℚ)
    (p2l : Coord → List Coord → ℚ) (poly : List Coord) (avail : List Station)
    (currentBattery fullRangeKm : ℚ) (currentIdx nextIdx : Nat) (best : Station)
    (h : searchBands gdist p2l poly avail currentBattery fullRangeKm currentIdx
      nextIdx [10, 20, 30, 40] = some best) :
    ∃ sr ∈ ([10, 20, 30, 40] : List ℚ),
      bandCandidates gdist p2l poly avail currentBattery fullRangeKm currentIdx
        nextIdx sr ≠ [] ∧
      best ∈ bandCandidates gdist p2l poly avail currentBattery fullRangeKm
        currentIdx nextIdx sr ∧
      ∀ s ∈ bandCandidates gdist p2l poly avail currentBattery fullRangeKm
          currentIdx nextIdx sr,
        gdist (poly.getD (nextIdx - 1) (0, 0)) best.coord ≤
          gdist (poly.getD (nextIdx - 1) (0, 0)) s.coord :=
  searchBands_spec _ best h

/-- C10: in both modes the battery is never decremented for the distance
travelled to reach a charging stop: the recorded levels of the charging
stops of a plan are the initial battery percentage followed by exactly 100
for every later stop, and the only decrement — geometry mode's
destination stop — subtracts a single final-leg term from the level at the
last departure. -/
theorem battery_reset_invariant (gdist : Coord → Coord → ℚ)
    (p2l : Coord → List Coord → ℚ) (routePoints : List Coord)
    (stations : List Station)
    (initialBatteryPercent fullRangeKm minBatteryThreshold : ℚ)
    (out₁ : List RoutePoint) (start dest : Coord) (poly : List Coord)
    (stations₂ : List Station) (batteryPercent₂ fullRangeKm₂ batteryCapacityKWh₂ : ℚ)
    (fuel : Nat) (out₂ : List Coord × List RoutePoint × Bool)
    (h₁ : calculateChargingStops gdist routePoints stations initialBatteryPercent
      fullRangeKm minBatteryThreshold = some out₁)
    (h₂ : handleFormSubmitPlan gdist p2l start dest poly stations₂ batteryPercent₂
      fullRangeKm₂ batteryCapacityKWh₂ fuel = some out₂) :
    (chargeLevels out₁ = [] ∨
      ∃ n, chargeLevels out₁ = initialBatteryPercent :: List.replicate n 100) ∧
    (∀ p ∈ out₁, p.type = PointType.destination → ∃ d,
      p.batteryLevel = some (max 0
        ((if chargeLevels out₁ = [] then initialBatteryPercent else 100) -
          d / fullRangeKm * 100))) ∧
    (chargeLevels out₂.2.1 = [] ∨
      ∃ n, chargeLevels out₂.2.1 = batteryPercent₂ :: List.replicate n 100) := by
  simp only [calculateChargingStops] at h₁
  rcases Option.map_eq_some'.mp h₁ with ⟨rest, hrec, rfl⟩
  obtain ⟨hlev, hdest⟩ := chargingLoop_levels gdist _ _ fullRangeKm _ _ _ _ _
    stations rest hrec
  simp only [handleFormSubmitPlan] at h₂
  rcases Option.map_eq_some'.mp h₂ with ⟨out₂', hrec₂, rfl⟩
  have hlev₂ := (seqLoop_invariants gdist p2l poly dest fullRangeKm₂ _ fuel
    batteryPercent₂ 0 out₂' hrec₂).2
  rw [chargeLevels_cons_skip (by simp)]
  refine ⟨hlev, fun p hp hd => ?_, hlev₂⟩
  rcases List.mem_cons.mp hp with rfl | hp'
  · simp at hd
  · exact hdest p hp' hd

/-- C2, counterexample: on an input that strands immediately (destination
100 km away, usable range 10 km, no stations), geometry mode does not
produce a distinct Stranded outcome: it returns an ordinary stop list —
just the start point, with no destination stop and no failure marker —
indistinguishable in type and shape from a successful plan. -/
theorem stranded_counterexample :
    calculateChargingStops gdistM [((0 : ℚ), (0 : ℚ)), (100, 0)] [] 10 100 30 =
      some [{ lat := 0, lng := 0, type := PointType.start, station := none,
              batteryLevel := some 10, distanceFromStart := some 0 }] ∧
    ∀ p ∈ [({ lat := 0, lng := 0, type := PointType.start, station := none,
              batteryLevel := some 10, distanceFromStart := some 0 } : RoutePoint)],
      p.type ≠ PointType.destination := by
  constructor
  · norm_num [calculateChargingStops, chargingLoop, pickNextStop, reachableStations,
      calculateDistance, getUsableRange, distLE, gdistM]
  · decide

/-- C2, amended: whenever geometry-mode planning reaches a state — initial
or mid-plan, with any battery level, position and remaining working set —
where the destination is out of usable range and no remaining station is
reachable, the loop of `calculateChargingStops` exits at once and appends
nothing further, so the caller receives the ordinary stop list accumulated
up to that point; and every list the function returns either ends in its
unique destination-typed stop (success) or contains no destination-typed
stop at all (stranded) — the two shapes are separated by no distinct
failure value, so strandedness is visible only through the absence of a
destination stop. -/
theorem stranded_returns_accumulated_list (gdist : Coord → Coord → ℚ)
    (destLat destLng fullRangeKm : ℚ) (fuel : Nat)
    (currentBattery totalDistance currentLat currentLng : ℚ)
    (remaining : List Station)
    (hout : getUsableRange currentBattery fullRangeKm <
      calculateDistance gdist currentLat currentLng destLat destLng)
    (hempty : reachableStations gdist currentLat currentLng
      (getUsableRange currentBattery fullRangeKm) remaining = []) :
    chargingLoop gdist destLat destLng fullRangeKm (fuel + 1) currentBattery
      totalDistance currentLat currentLng remaining = some [] ∧
    ∀ (routePoints : List Coord) (stations : List Station)
      (initialBatteryPercent minBatteryThreshold : ℚ) (out : List RoutePoint),
      calculateChargingStops gdist routePoints stations initialBatteryPercent
        fullRangeKm minBatteryThreshold = some out →
      (∀ p ∈ out, p.type ≠ PointType.destination) ∨
      ∃ pre dpt, out = pre ++ [dpt] ∧ dpt.type = PointType.destination ∧
        ∀ p ∈ pre, p.type ≠ PointType.destination := by
  constructor
  · rw [chargingLoop, if_neg (not_le.mpr hout), hempty]
    rfl
  · intro routePoints stations initialBatteryPercent minBatteryThreshold out h
    simp only [calculateChargingStops] at h
    rcases Option.map_eq_some'.mp h with ⟨rest, hrec, rfl⟩
    exact dest_shape_cons (by simp)
      (chargingLoop_dest_shape gdist _ _ fullRangeKm _ _ _ _ _ stations rest hrec)

theorem geometry_stop_selection_witness :
    getUsableRange 50 10 < calculateDistance gdistM 0 0 10 0 ∧
    reachableStations gdistM 0 0 (getUsableRange 50 10) [stA] ≠ [] ∧
    ∃ c ∈ reachableStations gdistM 0 0 (getUsableRange 50 10) [stA],
      (∀ sd ∈ reachableStations gdistM 0 0 (getUsableRange 50 10) [stA],
          sd.1 ∈ [stA] ∧
          sd.2 = calculateDistance gdistM 0 0 sd.1.latitude sd.1.longitude ∧
          sd.2 ≤ getUsableRange 50 10) ∧
      (∀ s ∈ [stA],
          calculateDistance gdistM 0 0 s.latitude s.longitude ≤ getUsableRange 50 10 →
          (s, calculateDistance gdistM 0 0 s.latitude s.longitude) ∈
            reachableStations gdistM 0 0 (getUsableRange 50 10) [stA]) ∧
      List.Sorted distLE (reachableStations gdistM 0 0 (getUsableRange 50 10) [stA]) ∧
      ((calculateDistance gdistM c.1.latitude c.1.longitude 10 0 <
          calculateDistance gdistM 0 0 10 0 ∧
        ∀ d ∈ reachableStations gdistM 0 0 (getUsableRange 50 10) [stA],
          d.2 < c.2 →
          ¬ calculateDistance gdistM d.1.latitude d.1.longitude 10 0 <
            calculateDistance gdistM 0 0 10 0) ∨
       ((∀ d ∈ reachableStations gdistM 0 0 (getUsableRange 50 10) [stA],
          ¬ calculateDistance gdistM d.1.latitude d.1.longitude 10 0 <
            calculateDistance gdistM 0 0 10 0) ∧
        ∀ d ∈ reachableStations gdistM 0 0 (getUsableRange 50 10) [stA],
          c.2 ≤ d.2)) ∧
      chargingLoop gdistM 10 0 10 (0 + 1) 50 0 0 0 [stA] =
        (chargingLoop gdistM 10 0 10 0 100 (0 + c.2) c.1.latitude c.1.longitude
            ([stA].filter fun s => decide (s.station_id ≠ c.1.station_id))).map
          fun rest =>
            { lat := c.1.latitude, lng := c.1.longitude,
              type := PointType.charging_stop, station := some c.1,
              batteryLevel := some 50,
              distanceFromStart := some 0 } :: rest := by
  refine ⟨?_, ?_, geometry_stop_selection gdistM 10 0 10 0 50 0 0 0 [stA] ?_ ?_⟩ <;>
    norm_num [getUsableRange, calculateDistance, gdistM, reachableStations, distLE,
      stA, List.insertionSort, List.orderedInsert]

theorem stranded_returns_accumulated_list_witness :
    getUsableRange 100 10 < calculateDistance gdistM 3 0 30 0 ∧
    reachableStations gdistM 3 0 (getUsableRange 100 10) [] = [] ∧
    calculateChargingStops gdistM [((0 : ℚ), (0 : ℚ)), (30, 0)] [stA] 50 10 30 =
      some [{ lat := 0, lng := 0, type := PointType.start, station := none,
              batteryLevel := some 50, distanceFromStart := some 0 },
            { lat := 3, lng := 0, type := PointType.charging_stop,
              station := some stA, batteryLevel := some 50,
              distanceFromStart := some 0 }] ∧
    (chargingLoop gdistM 30 0 10 (0 + 1) 100 3 3 0 [] = some [] ∧
     ∀ (routePoints : List Coord) (stations : List Station)
       (initialBatteryPercent minBatteryThreshold : ℚ) (out : List RoutePoint),
       calculateChargingStops gdistM routePoints stations initialBatteryPercent
         10 minBatteryThreshold = some out →
       (∀ p ∈ out, p.type ≠ PointType.destination) ∨
       ∃ pre dpt, out = pre ++ [dpt] ∧ dpt.type = PointType.destination ∧
         ∀ p ∈ pre, p.type ≠ PointType.destination) := by
  refine ⟨?_, ?_, ?_,
    stranded_returns_accumulated_list gdistM 30 0 10 0 100 3 3 0 [] ?_ ?_⟩
  · norm_num [getUsableRange, calculateDistance, gdistM]
  · rfl
  · norm_num [calculateChargingStops, chargingLoop, pickNextStop, reachableStations,
      calculateDistance, getUsableRange, distLE, gdistM, stA, List.insertionSort,
      List.orderedInsert]
  · norm_num [getUsableRange, calculateDistance, gdistM]
  · rfl

theorem geometry_no_station_reuse_witness :
    calculateChargingStops gdistM [((0 : ℚ), (0 : ℚ)), (10, 0)] [stA] 50 10 30 =
      some [{ lat := 0, lng := 0, type := PointType.start, station := none,
              batteryLevel := some 50, distanceFromStart := some 0 },
            { lat := 3, lng := 0, type := PointType.charging_stop,
              station := some stA, batteryLevel := some 50,
              distanceFromStart := some 0 },
            { lat := 10, lng := 0, type := PointType.destination, station := none,
              batteryLevel := some 30, distanceFromStart := some 10 }] ∧
    ((stopStations
        [{ lat := 0, lng := 0, type := PointType.start, station := none,
           batteryLevel := some 50, distanceFromStart := some 0 },
         { lat := 3, lng := 0, type := PointType.charging_stop,
           station := some stA, batteryLevel := some 50,
           distanceFromStart := some 0 },
         { lat := 10, lng := 0, type := PointType.destination, station := none,
           batteryLevel := some 30, distanceFromStart := some 10 }]).map
      Station.station_id).Nodup := by
  have hEq : calculateChargingStops gdistM [((0 : ℚ), (0 : ℚ)), (10, 0)] [stA] 50 10 30 =
      some [{ lat := 0, lng := 0, type := PointType.start, station := none,
              batteryLevel := some 50, distanceFromStart := some 0 },
            { lat := 3, lng := 0, type := PointType.charging_stop,
              station := some stA, batteryLevel := some 50,
              distanceFromStart := some 0 },
            { lat := 10, lng := 0, type := PointType.destination, station := none,
              batteryLevel := some 30, distanceFromStart := some 10 }] := by
    norm_num [calculateChargingStops, chargingLoop, pickNextStop, reachableStations,
      calculateDistance, getUsableRange, distLE, gdistM, stA, List.insertionSort,
      List.orderedInsert]
  exact ⟨hEq, geometry_no_station_reuse gdistM _ _ _ _ _ _ hEq⟩

theorem seq_stops_available_witness :
    handleFormSubmitPlan gdistM p2lM (0, 0) (12, 0)
        [((0 : ℚ), (0 : ℚ)), (4, 0), (8, 0), (12, 0)] [stS1] 100 5 20 10 =
      some ([(0, 0), (4, 1), (4, 1), (12, 0)],
        [{ lat := 4, lng := 1, type := PointType.charging_stop,
           station := some stS1, batteryLevel := some 100,
           distanceFromStart := some 4 },
         { lat := 4, lng := 1, type := PointType.charging_stop,
           station := some stS1, batteryLevel := some 100,
           distanceFromStart := some 8 }], false) ∧
    ∀ s ∈ stopStations
        [{ lat := 4, lng := 1, type := PointType.charging_stop,
           station := some stS1, batteryLevel := some 100,
           distanceFromStart := some 4 },
         { lat := 4, lng := 1, type := PointType.charging_stop,
           station := some stS1, batteryLevel := some 100,
           distanceFromStart := some 8 }],
      0 < s.available_slots ∧ (20 : ℚ) / s.power_rating_kw ≤ 3 := by
  have hEq : handleFormSubmitPlan gdistM p2lM (0, 0) (12, 0)
      [((0 : ℚ), (0 : ℚ)), (4, 0), (8, 0), (12, 0)] [stS1] 100 5 20 10 =
      some ([(0, 0), (4, 1), (4, 1), (12, 0)],
        [{ lat := 4, lng := 1, type := PointType.charging_stop,
           station := some stS1, batteryLevel := some 100,
           distanceFromStart := some 4 },
         { lat := 4, lng := 1, type := PointType.charging_stop,
           station := some stS1, batteryLevel := some 100,
           distanceFromStart := some 8 }], false) := by
    norm_num [handleFormSubmitPlan, seqLoop, walkForward, searchBands, bandCandidates,
      pickBestStation, findStationsAlongRoute, calculateTotalRouteDistance,
      calculateDistance, getUsableRange, gdistM, p2lM, Station.coord, stS1]
  exact ⟨hEq, seq_stops_available gdistM p2lM _ _ _ _ _ _ _ _ _ hEq⟩

theorem seq_band_selection_witness :
    searchBands gdistM p2lM [((0 : ℚ), (0 : ℚ)), (4, 0), (8, 0), (12, 0)] [stS1]
        100 5 0 2 [10, 20, 30, 40] = some stS1 ∧
    ∃ sr ∈ ([10, 20, 30, 40] : List ℚ),
      bandCandidates gdistM p2lM [((0 : ℚ), (0 : ℚ)), (4, 0), (8, 0), (12, 0)] [stS1]
        100 5 0 2 sr ≠ [] ∧
      stS1 ∈ bandCandidates gdistM p2lM [((0 : ℚ), (0 : ℚ)), (4, 0), (8, 0), (12, 0)]
        [stS1] 100 5 0 2 sr ∧
      ∀ s ∈ bandCandidates gdistM p2lM [((0 : ℚ), (0 : ℚ)), (4, 0), (8, 0), (12, 0)]
          [stS1] 100 5 0 2 sr,
        gdistM ([((0 : ℚ), (0 : ℚ)), (4, 0), (8, 0), (12, 0)].getD (2 - 1) (0, 0))
            stS1.coord ≤
          gdistM ([((0 : ℚ), (0 : ℚ)), (4, 0), (8, 0), (12, 0)].getD (2 - 1) (0, 0))
            s.coord := by
  have hEq : searchBands gdistM p2lM [((0 : ℚ), (0 : ℚ)), (4, 0), (8, 0), (12, 0)]
      [stS1] 100 5 0 2 [10, 20, 30, 40] = some stS1 := by
    norm_num [searchBands, bandCandidates, pickBestStation, findStationsAlongRoute,
      calculateDistance, getUsableRange, gdistM, p2lM, Station.coord, stS1]
  exact ⟨hEq, seq_band_selection gdistM p2lM _ _ _ _ _ _ _ hEq⟩

theorem battery_reset_invariant_witness :
    calculateChargingStops gdistM [((0 : ℚ), (0 : ℚ)), (10, 0)] [stA] 50 10 30 =
      some [{ lat := 0, lng := 0, type := PointType.start, station := none,
              batteryLevel := some 50, distanceFromStart := some 0 },
            { lat := 3, lng := 0, type := PointType.charging_stop,
              station := some stA, batteryLevel := some 50,
              distanceFromStart := some 0 },
            { lat := 10, lng := 0, type := PointType.destination, station := none,
              batteryLevel := some 30, distanceFromStart := some 10 }] ∧
    handleFormSubmitPlan gdistM p2lM (0, 0) (12, 0)
        [((0 : ℚ), (0 : ℚ)), (4, 0), (8, 0), (12, 0)] [stS1] 100 5 20 10 =
      some ([(0, 0), (4, 1), (4, 1), (12, 0)],
        [{ lat := 4, lng := 1, type := PointType.charging_stop,
           station := some stS1, batteryLevel := some 100,
           distanceFromStart := some 4 },
         { lat := 4, lng := 1, type := PointType.charging_stop,
           station := some stS1, batteryLevel := some 100,
           distanceFromStart := some 8 }], false) ∧
    ((chargeLevels
        [{ lat := 0, lng := 0, type := PointType.start, station := none,
           batteryLevel := some 50, distanceFromStart := some 0 },
         { lat := 3, lng := 0, type := PointType.charging_stop,
           station := some stA, batteryLevel := some 50,
           distanceFromStart := some 0 },
         { lat := 10, lng := 0, type := PointType.destination, station := none,
           batteryLevel := some 30, distanceFromStart := some 10 }] = [] ∨
      ∃ n, chargeLevels
        [{ lat := 0, lng := 0, type := PointType.start, station := none,
           batteryLevel := some 50, distanceFromStart := some 0 },
         { lat := 3, lng := 0, type := PointType.charging_stop,
           station := some stA, batteryLevel := some 50,
           distanceFromStart := some 0 },
         { lat := 10, lng := 0, type := PointType.destination, station := none,
           batteryLevel := some 30, distanceFromStart := some 10 }] =
        50 :: List.replicate n 100) ∧
     (∀ p ∈ ([{ lat := 0, lng := 0, type := PointType.start, station := none,
                 batteryLevel := some 50, distanceFromStart := some 0 },
               { lat := 3, lng := 0, type := PointType.charging_stop,
                 station := some stA, batteryLevel := some 50,
                 distanceFromStart := some 0 },
               { lat := 10, lng := 0, type := PointType.destination, station := none,
                 batteryLevel := some 30, distanceFromStart := some 10 }] :
              List RoutePoint),
        p.type = PointType.destination → ∃ d,
        p.batteryLevel = some (max 0
          ((if chargeLevels
              [{ lat := 0, lng := 0, type := PointType.start, station := none,
                 batteryLevel := some 50, distanceFromStart := some 0 },
               { lat := 3, lng := 0, type := PointType.charging_stop,
                 station := some stA, batteryLevel := some 50,
                 distanceFromStart := some 0 },
               { lat := 10, lng := 0, type := PointType.destination, station := none,
                 batteryLevel := some 30, distanceFromStart := some 10 }] = []
            then 50 else 100) - d / 10 * 100))) ∧
     (chargeLevels
        [{ lat := 4, lng := 1, type := PointType.charging_stop,
           station := some stS1, batteryLevel := some 100,
           distanceFromStart := some 4 },
         { lat := 4, lng := 1, type := PointType.charging_stop,
           station := some stS1, batteryLevel := some 100,
           distanceFromStart := some 8 }] = [] ∨
      ∃ n, chargeLevels
        [{ lat := 4, lng := 1, type := PointType.charging_stop,
           station := some stS1, batteryLevel := some 100,
           distanceFromStart := some 4 },
         { lat := 4, lng := 1, type := PointType.charging_stop,
           station := some stS1, batteryLevel := some 100,
           distanceFromStart := some 8 }] = 100 :: List.replicate n 100)) := by
  have hEq₁ : calculateChargingStops gdistM [((0 : ℚ), (0 : ℚ)), (10, 0)] [stA] 50 10 30 =
      some [{ lat := 0, lng := 0, type := PointType.start, station := none,
              batteryLevel := some 50, distanceFromStart := some 0 },
            { lat := 3, lng := 0, type := PointType.charging_stop,
              station := some stA, batteryLevel := some 50,
              distanceFromStart := some 0 },
            { lat := 10, lng := 0, type := PointType.destination, station := none,
              batteryLevel := some 30, distanceFromStart := some 10 }] := by
    norm_num [calculateChargingStops, chargingLoop, pickNextStop, reachableStations,
      calculateDistance, getUsableRange, distLE, gdistM, stA, List.insertionSort,
      List.orderedInsert]
  have hEq₂ : handleFormSubmitPlan gdistM p2lM (0, 0) (12, 0)
      [((0 : ℚ), (0 : ℚ)), (4, 0), (8, 0), (12, 0)] [stS1] 100 5 20 10 =
      some ([(0, 0), (4, 1), (4, 1), (12, 0)],
        [{ lat := 4, lng := 1, type := PointType.charging_stop,
           station := some stS1, batteryLevel := some 100,
           distanceFromStart := some 4 },
         { lat := 4, lng := 1, type := PointType.charging_stop,
           station := some stS1, batteryLevel := some 100,
           distanceFromStart := some 8 }], false) := by
    norm_num [handleFormSubmitPlan, seqLoop, walkForward, searchBands, bandCandidates,
      pickBestStation, findStationsAlongRoute, calculateTotalRouteDistance,
      calculateDistance, getUsableRange, gdistM, p2lM, Station.coord, stS1]
  exact ⟨hEq₁, hEq₂,
    battery_reset_invariant gdistM p2lM _ _ _ _ _ _ _ _ _ _ _ _ _ _ _ hEq₁ hEq₂⟩

/-- C7: `usableRange(batteryPercent, fullRangeKm)` is the linear model
`batteryPercent / 100 * fullRangeKm`, which is `fullRangeKm` exactly at
100 % and 0 at 0 %. -/
theorem usableRange_linear (batteryPercent fullRangeKm : ℚ)
    (h0 : 0 ≤ batteryPercent) (h100 : batteryPercent ≤ 100) (hr : 0 < fullRangeKm) :
    getUsableRange batteryPercent fullRangeKm = batteryPercent / 100 * fullRangeKm ∧
    getUsableRange 100 fullRangeKm = fullRangeKm ∧
    getUsableRange 0 fullRangeKm = 0 := by
  refine ⟨rfl, ?_, ?_⟩ <;> simp [getUsableRange]

theorem usableRange_linear_witness :
    (0 : ℚ) ≤ 50 ∧ (50 : ℚ) ≤ 100 ∧ (0 : ℚ) < 10 ∧
    (getUsableRange 50 10 = 50 / 100 * 10 ∧
     getUsableRange 100 10 = 10 ∧ getUsableRange 0 10 = 0) :=
  ⟨by norm_num, by norm_num, by norm_num,
   usableRange_linear 50 10 (by norm_num) (by norm_num) (by norm_num)⟩

/-- C8: for a polyline with at least two points, `calculateTotalRouteDistance`
equals the sum of the pairwise point-to-point distances over consecutive
points. -/
theorem totalRouteDistance_eq_pairwise_sum (gdist : Coord → Coord → ℚ)
    (line : List Coord) (h : 2 ≤ line.length) :
    calculateTotalRouteDistance gdist line = pairwiseDistanceSum gdist line :=
  total_eq_pairwise gdist line

theorem totalRouteDistance_eq_pairwise_sum_witness :
    2 ≤ ([((0 : ℚ), (0 : ℚ)), (3, 4), (5, 4)] : List Coord).length ∧
    calculateTotalRouteDistance gdistM [((0 : ℚ), (0 : ℚ)), (3, 4), (5, 4)] =
      pairwiseDistanceSum gdistM [((0 : ℚ), (0 : ℚ)), (3, 4), (5, 4)] :=
  ⟨by decide,
   totalRouteDistance_eq_pairwise_sum gdistM [((0 : ℚ), (0 : ℚ)), (3, 4), (5, 4)]
     (by decide)⟩

/-- C3, counterexample: with `powerKw = 0` the charging-time estimate does
not fail and is not infinite — it silently returns the finite number 10
(hours), exactly the value obtained with the substituted power 1 kW. -/
theorem estimateChargingTime_zero_power_counterexample :
    estimateChargingTime 80 320 0 40 = 10 ∧
    estimateChargingTime 80 320 0 40 = estimateChargingTime 80 320 1 40 := by
  constructor <;> norm_num [estimateChargingTime]

/-- C3, amended: when `powerKw = 0` the source divides by `powerKw || 1`,
so the estimate silently substitutes 1 kW and returns the same finite
value as an explicit 1 kW rating. -/
theorem estimateChargingTime_zero_power_substitutes_one
    (distanceKm fullRangeKm batteryCapacityKWh : ℚ) :
    estimateChargingTime distanceKm fullRangeKm 0 batteryCapacityKWh =
      estimateChargingTime distanceKm fullRangeKm 1 batteryCapacityKWh := by
  simp [estimateChargingTime]

/-- C9: `calculateChargingStops` terminates on every input — each
iteration either reaches the destination, exits with no reachable
station, or removes the selected station from the working set, so
`stations.length + 1` iterations of fuel always produce a result. -/
theorem calculateChargingStops_terminates (gdist : Coord → Coord → ℚ)
    (routePoints : List Coord) (stations : List Station)
    (initialBatteryPercent fullRangeKm minBatteryThreshold : ℚ) :
    (calculateChargingStops gdist routePoints stations initialBatteryPercent
      fullRangeKm minBatteryThreshold).isSome = true := by
  unfold calculateChargingStops
  rw [Option.isSome_map']
  exact chargingLoop_isSome gdist _ _ fullRangeKm (stations.length + 1)
    initialBatteryPercent 0 _ _ stations (Nat.lt_succ_self _)

end EvFlowCharge
